import Mathlib

/-!
Verification development for the EcoFinance Pro analysis engine
(src/EcoFinance_pro.py): a shallow embedding of its record model, metric
computations, query routing, report generation and investment simulation,
with theorems settling the specified properties.

Numeric fields are embedded as exact rationals.  The only IEEE-float
behaviours the source actually exercises beyond exact arithmetic are
division by zero (yielding inf / -inf / nan), the mean of an empty pandas
Series (nan), and comparisons involving nan (always false); these are
captured by the `PFloat` type below.
-/

/-- Result of a pandas floating-point computation: an exact value, a signed
infinity (from dividing a nonzero value by zero), or `nan` (from `0/0` or
the mean of an empty Series). -/
inductive PFloat where
  | val (q : ℚ)
  | inf
  | ninf
  | nan
deriving DecidableEq

/-- Division of two finite pandas floats, as numpy performs it:
`a/0` is `inf` for `a > 0`, `-inf` for `a < 0`, and `nan` for `0/0`;
otherwise exact division.  (The source only ever divides finite sums.) -/
def divVal (a b : ℚ) : PFloat :=
  if b = 0 then (if a = 0 then PFloat.nan else if 0 < a then PFloat.inf else PFloat.ninf)
  else PFloat.val (a / b)

/-- IEEE-style strict comparison on pandas floats: any comparison with
`nan` is false. -/
def PFloat.lt : PFloat → PFloat → Bool
  | .nan, _ => false
  | _, .nan => false
  | .ninf, .ninf => false
  | .ninf, _ => true
  | _, .ninf => false
  | .inf, _ => false
  | .val _, .inf => true
  | .val a, .val b => decide (a < b)

/-- pandas `Series.max`: skips `nan` entries; `nan` on an empty (or
all-`nan`) series. -/
def serieMax : List PFloat → PFloat
  | [] => PFloat.nan
  | x :: xs =>
    match x, serieMax xs with
    | .nan, m => m
    | v, .nan => v
    | v, m => if PFloat.lt v m then m else v

/-- One row of the `operaciones_mineras` table (the surrogate `id` key is
assigned by the store and is not part of the captured data). -/
structure Registro where
  fecha : String
  proceso : String
  material : String
  agua_m3 : ℚ
  energia_kwh : ℚ
  co2_ton : ℚ
  residuos_ton : ℚ
  produccion_ton : ℚ
  ingresos_soles : ℚ
  gastos_soles : ℚ
  inversion_ambiental_soles : ℚ
deriving DecidableEq

/-- The record built by the tab-1 INSERT (form_mineria): material is the
constant "Cobre", residuos is 0, and the three monetary fields are derived
from produccion and co2 with the fixed multipliers 5000, 3500 and 40. -/
def insertarOperacion (fecha proceso : String) (agua energia co2 produccion : ℚ) :
    Registro :=
  { fecha := fecha
    proceso := proceso
    material := "Cobre"
    agua_m3 := agua
    energia_kwh := energia
    co2_ton := co2
    residuos_ton := 0
    produccion_ton := produccion
    ingresos_soles := produccion * 5000
    gastos_soles := produccion * 3500
    inversion_ambiental_soles := co2 * 40 }

/-- pandas `Series.sum` over a column: sum of the field, 0 on empty. -/
def totalCampo (df : List Registro) (f : Registro → ℚ) : ℚ :=
  (df.map f).sum

/-- pandas `Series.mean` over a column: `nan` on an empty frame, otherwise
the exact arithmetic mean. -/
def mediaCampo (df : List Registro) (f : Registro → ℚ) : PFloat :=
  match df with
  | [] => PFloat.nan
  | _ :: _ => PFloat.val (totalCampo df f / (df.length : ℚ))

/-- The daily-rate pattern of the source (`df[campo].sum()/30` at lines 85
and 198): plain division of the column sum by the period. -/
def tasaDiaria (df : List Registro) (f : Registro → ℚ) (dias : ℚ) : ℚ :=
  totalCampo df f / dias

/-- Codepoint-lexicographic strict order on character lists, as Python
compares `str` values. -/
def menorLex : List Char → List Char → Bool
  | [], [] => false
  | [], _ :: _ => true
  | _ :: _, [] => false
  | a :: as, b :: bs => if a < b then true else if b < a then false else menorLex as bs

/-- Insert into a list sorted by `le` (insertion step of the sort). -/
def insertarOrd (le : α → α → Bool) (x : α) : List α → List α
  | [] => [x]
  | y :: ys => if le x y then x :: y :: ys else y :: insertarOrd le x ys

/-- Insertion sort by the boolean relation `le`. -/
def ordenar (le : α → α → Bool) : List α → List α
  | [] => []
  | x :: xs => insertarOrd le x (ordenar le xs)

/-- Boolean membership of a string in a list (helper for key dedup). -/
def estaEn (x : String) : List String → Bool
  | [] => false
  | y :: ys => x == y || estaEn x ys

/-- The distinct elements of a key list (each key once; which duplicate
survives is irrelevant, the keys are sorted afterwards). -/
def unicos : List String → List String
  | [] => []
  | x :: xs => if estaEn x xs then unicos xs else x :: unicos xs

/-- The distinct group keys of `df.groupby('proceso')`, in the sorted key
order pandas uses (groupby defaults to sort=True). -/
def clavesUnicas (df : List Registro) : List String :=
  ordenar (fun a b => !(menorLex b.toList a.toList)) (unicos (df.map (fun r => r.proceso)))

/-- Sum of a field over the rows of one group. -/
def sumaGrupo (df : List Registro) (g : String) (f : Registro → ℚ) : ℚ :=
  totalCampo (df.filter (fun r => r.proceso == g)) f

/-- The per-group sums behind line 77-79: for each proceso, the pair
(sum of produccion_ton, sum of agua_m3).  The lambda divides these sums
with no zero-denominator guard. -/
def eficienciaPares (df : List Registro) : List (String × ℚ × ℚ) :=
  (clavesUnicas df).map
    (fun g => (g, sumaGrupo df g (fun r => r.produccion_ton),
                  sumaGrupo df g (fun r => r.agua_m3)))

/-- The Series produced by `groupby('proceso').apply(lambda x: ...sum()/...sum())`:
every group present in the frame gets a ratio entry, a zero denominator
yielding inf/nan exactly as numpy division does. -/
def eficienciaSerie (df : List Registro) : List (String × PFloat) :=
  (eficienciaPares df).map (fun p => (p.1, divVal p.2.1 p.2.2))

/-- Descending-value comparison used by `sort_values(ascending=False)`:
`nan` entries go last (pandas na_position defaults to "last"). -/
def antesDescendente (a b : PFloat) : Bool :=
  match a, b with
  | .nan, .nan => true
  | .nan, _ => false
  | _, .nan => true
  | a, b => !(PFloat.lt a b)

/-- The ranked efficiency Series of line 77-79 after
`sort_values(ascending=False)`. -/
def eficienciaOrdenada (df : List Registro) : List (String × PFloat) :=
  ordenar (fun a b => antesDescendente a.2 b.2) (eficienciaSerie df)

/-- pandas `Series.idxmax` over (index, value) pairs: index of the first
maximal value; pandas raises on an empty series, modelled as `none`. -/
def idxmaxAux (mejor : String × ℚ) : List (String × ℚ) → String
  | [] => mejor.1
  | p :: rest => if decide (mejor.2 < p.2) then idxmaxAux p rest else idxmaxAux mejor rest

/-- See `idxmaxAux`; `none` models the ValueError pandas raises on an empty
series. -/
def idxmaxPares : List (String × ℚ) → Option String
  | [] => none
  | p :: rest => some (idxmaxAux p rest)

/-- Per-proceso CO2 sums, `df.groupby('proceso')['co2_ton'].sum()` of
line 92. -/
def co2PorProceso (df : List Registro) : List (String × ℚ) :=
  (clavesUnicas df).map (fun g => (g, sumaGrupo df g (fun r => r.co2_ton)))

/-- The compliance comparison the source applies at lines 93, 193 and 197:
strict `observado < limite`. -/
def cumpleLimite (observado limite : ℚ) : Bool :=
  decide (observado < limite)

/-- The value line 81-86 interpolates as the best process.  Line 80 binds
`mejor_proceso = eficiencia.idxmax` WITHOUT calling the method, so the
interpolated value is the bound-method object itself
(`metodoSinInvocar`), never a process name (`proceso g`). -/
inductive ProcesoRef where
  | metodoSinInvocar
  | proceso (g : String)
deriving DecidableEq

/-- Content of the water-efficiency analysis block (lines 81-86).  The
recommendation sentence is static text and carries no data. -/
structure AnalisisAgua where
  mejorProceso : ProcesoRef
  maxEficiencia : PFloat
  aguaPorDia : ℚ
deriving DecidableEq

/-- Content of the emissions analysis block (lines 89-94). -/
structure AnalisisEmision where
  totalCo2 : ℚ
  procesoClave : Option String
  cumple : Bool
deriving DecidableEq

/-- The analysis section of an answer, absent when no trigger matched. -/
inductive Analisis where
  | agua (a : AnalisisAgua)
  | emision (e : AnalisisEmision)
deriving DecidableEq

/-- The static legal-reference list every answer carries (lines 102-107). -/
def normasPeruBase : List String :=
  ["Ley N° 28611", "50 ton/día (DS N° 003-2014-MINAM)", "Hasta 10,000 UIT por incumplimiento"]

/-- The structured content of consulta_ia's HTML answer: the echoed
question, an optional computed analysis, and the static legal section. -/
structure Respuesta where
  pregunta : String
  analisis : Option Analisis
  baseLegal : List String
deriving DecidableEq

/-- Python `str.lower` on the question, as a character list. -/
def minusculas (s : String) : List Char :=
  s.toList.map Char.toLower

/-- Whether `patron` is a leading segment of `s` (helper for substring
containment). -/
def empiezaCon : List Char → List Char → Bool
  | [], _ => true
  | _ :: _, [] => false
  | a :: as, b :: bs => a == b && empiezaCon as bs

/-- Python `patron in s` on character lists: substring containment. -/
def contieneLista (patron : List Char) : List Char → Bool
  | [] => patron.isEmpty
  | c :: cs => empiezaCon patron (c :: cs) || contieneLista patron cs

/-- `consulta_ia(pregunta, df)` (lines 67-109): ordered keyword routing —
"agua" in the lowercased question selects the water-efficiency analysis,
else "emision" selects the emissions analysis, else the analysis section
is empty; every answer echoes the question and appends the static legal
section. -/
def consulta_ia (pregunta : String) (df : List Registro) : Respuesta :=
  if contieneLista "agua".toList (minusculas pregunta) = true then
    { pregunta := pregunta
      analisis := some (Analisis.agua
        { mejorProceso := ProcesoRef.metodoSinInvocar
          maxEficiencia := serieMax ((eficienciaOrdenada df).map (fun p => p.2))
          aguaPorDia := tasaDiaria df (fun r => r.agua_m3) 30 })
      baseLegal := normasPeruBase }
  else if contieneLista "emision".toList (minusculas pregunta) = true then
    { pregunta := pregunta
      analisis := some (Analisis.emision
        { totalCo2 := totalCampo df (fun r => r.co2_ton)
          procesoClave := idxmaxPares (co2PorProceso df)
          cumple := cumpleLimite (tasaDiaria df (fun r => r.co2_ton) 30) 50 })
      baseLegal := normasPeruBase }
  else
    { pregunta := pregunta
      analisis := none
      baseLegal := normasPeruBase }

/-- The water-analysis best-process field of an answer, when the answer
carries a water analysis. -/
def mejorProcesoDe (r : Respuesta) : Option ProcesoRef :=
  match r.analisis with
  | some (Analisis.agua a) => some a.mejorProceso
  | _ => none

/-- Result table of the tab-4 simulation (lines 167-172).  The two string
fields are the literal static texts of the source; ahorroAnual and
roiAnios carry the numeric values the f-strings format. -/
structure Simulacion where
  reduccionCo2 : String
  ahorroAnual : ℚ
  roiAnios : ℕ
  cumplimientoLegal : String
deriving DecidableEq

/-- The tab-4 simulation: `tipo` (the selected technology) is never read;
ahorro is `inversion*0.2` (= inversion/5 exactly), ROI echoes the term,
the CO2 reduction band and the compliance cell are static. -/
def simularImpacto (inversion : ℚ) (plazo : ℕ) (tipo : String) : Simulacion :=
  { reduccionCo2 := "15-25%"
    ahorroAnual := inversion * (1 / 5)
    roiAnios := plazo
    cumplimientoLegal := "✅ 100%" }

/-- The computed content of the tab-5 executive report (lines 184-199):
total production, water intensity, emissions per sol of revenue, the
energy-trend verdict (mean compared against the literal 100), the CO2
verdict (mean compared against the literal 1.5) and the water daily
rate. -/
structure Reporte where
  produccionTotal : ℚ
  intensidadHidrica : PFloat
  emisionesPorIngreso : PFloat
  tendencia : String
  co2Dentro : Bool
  aguaPorDia : ℚ
deriving DecidableEq

/-- `generarReporte` embeds the tab-5 report block: each field is the
corresponding inline expression of lines 188-198. -/
def generarReporte (df : List Registro) : Reporte :=
  { produccionTotal := totalCampo df (fun r => r.produccion_ton)
    intensidadHidrica :=
      divVal (totalCampo df (fun r => r.agua_m3)) (totalCampo df (fun r => r.produccion_ton))
    emisionesPorIngreso :=
      divVal (totalCampo df (fun r => r.co2_ton)) (totalCampo df (fun r => r.ingresos_soles))
    tendencia :=
      if PFloat.lt (mediaCampo df (fun r => r.energia_kwh)) (PFloat.val 100) then "mejorado"
      else "empeorado"
    co2Dentro := PFloat.lt (mediaCampo df (fun r => r.co2_ton)) (PFloat.val (3 / 2))
    aguaPorDia := tasaDiaria df (fun r => r.agua_m3) 30 }

/-! ## Concrete record collections used to settle the claims -/

/-- Two processes: Extracción with production/water 10/2 = 5 and
Procesamiento with 1/2, so the ranking has a unique best group. -/
def dfDosProcesos : List Registro :=
  [insertarOperacion "2024-01-01" "Extracción" 2 0 0 10,
   insertarOperacion "2024-01-02" "Procesamiento" 2 0 0 1]

/-- One group whose water (denominator) sum is exactly 0. -/
def dfDenominadorCero : List Registro :=
  [insertarOperacion "2024-03-01" "Extracción" 0 0 0 7]

/-- One record with water 10 and production 0: the report's water-intensity
denominator is 0. -/
def dfProduccionCero : List Registro :=
  [insertarOperacion "2024-03-02" "Extracción" 10 0 0 0]

/-- One record with energy 150: mean energy 150. -/
def dfEnergia150 : List Registro :=
  [insertarOperacion "2024-03-03" "Extracción" 0 150 0 0]

/-- One record with energy 90: mean energy 90. -/
def dfEnergia90 : List Registro :=
  [insertarOperacion "2024-03-04" "Extracción" 0 90 0 0]

/-! ## Claims -/

/-- C1: the water-efficiency answer should report, as best process, the group
value of the first (highest-ratio) entry of the production/water ranking.  On
`dfDosProcesos` that first entry is ("Extracción", 5), but the answer's
best-process field holds the un-invoked `idxmax` bound-method reference
(line 80 binds `eficiencia.idxmax` without calling it), which is not the
group value "Extracción". -/
theorem c1_mejor_proceso_es_metodo_sin_invocar :
    eficienciaOrdenada dfDosProcesos =
      [("Extracción", PFloat.val 5), ("Procesamiento", PFloat.val (1 / 2))] ∧
    mejorProcesoDe (consulta_ia "agua" dfDosProcesos) = some ProcesoRef.metodoSinInvocar ∧
    mejorProcesoDe (consulta_ia "agua" dfDosProcesos) ≠ some (ProcesoRef.proceso "Extracción") := by
  refine ⟨?_, by decide, by decide⟩
  simp [dfDosProcesos, eficienciaOrdenada, eficienciaSerie, eficienciaPares, clavesUnicas,
    ordenar, insertarOrd, menorLex, unicos, estaEn, sumaGrupo, totalCampo, divVal,
    insertarOperacion, antesDescendente, PFloat.lt, List.filter_cons]
  norm_num

/-- C2: the grouped production/water ratio is supposed to exclude every group
whose denominator sum is 0.  The code has no such guard: on
`dfDenominadorCero` the single group has water sum exactly 0, it still
appears in the per-group sums, and the returned ranking carries the
infinite ratio numpy produces for 7/0. -/
theorem c2_grupo_denominador_cero_incluido :
    eficienciaPares dfDenominadorCero = [("Extracción", 7, 0)] ∧
    eficienciaOrdenada dfDenominadorCero = [("Extracción", PFloat.inf)] := by
  constructor <;>
    simp [dfDenominadorCero, eficienciaOrdenada, eficienciaSerie, eficienciaPares, clavesUnicas,
      ordenar, insertarOrd, menorLex, unicos, estaEn, sumaGrupo, totalCampo, divVal,
      insertarOperacion, antesDescendente, PFloat.lt, List.filter_cons]

/-- C3: on the empty record collection the mean-by-field computation is
supposed to fail with InsufficientDataError and the daily-rate computation
likewise; instead pandas `mean()` returns NaN and `sum()/30` returns 0 —
exactly the numeric defaults the claim forbids. -/
theorem c3_vacio_devuelve_nan_y_cero :
    mediaCampo [] (fun r => r.energia_kwh) = PFloat.nan ∧
    tasaDiaria [] (fun r => r.agua_m3) 30 = 0 := by
  refine ⟨rfl, ?_⟩
  norm_num [tasaDiaria, totalCampo]

/-- C4 counterexample: the claim says `passed = (observedValue <= limitValue)`,
so at `observedValue = limitValue = 50` the verdict should be passed; the
source compares with strict `<` and yields not-passed. -/
theorem c4_igualdad_no_pasa :
    (50 : ℚ) ≤ 50 ∧ cumpleLimite 50 50 = false := by
  exact ⟨le_refl _, by decide⟩

/-- C4 amended: the compliance verdict is `passed = (observedValue <
limitValue)`: at equality the verdict is not passed, the set of passing
observations is downward closed, and the flip from passed to not-passed
happens exactly when the observation reaches the limit. -/
theorem c4_cumplimiento_estricto (o l : ℚ) :
    (cumpleLimite o l = true ↔ o < l) ∧
    cumpleLimite l l = false ∧
    (∀ o₂ : ℚ, o ≤ o₂ → cumpleLimite o₂ l = true → cumpleLimite o l = true) := by
  refine ⟨by simp [cumpleLimite], by simp [cumpleLimite], ?_⟩
  intro o₂ hle h
  simp only [cumpleLimite, decide_eq_true_eq] at h ⊢
  exact lt_of_le_of_lt hle h

/-- C4 witness: the amended verdict at concrete inputs — 49 against limit 50
passes, 50 against limit 50 does not. -/
theorem c4_cumplimiento_estricto_witness :
    cumpleLimite 49 50 = true ∧ cumpleLimite 50 50 = false :=
  ⟨(c4_cumplimiento_estricto 49 50).1.mpr (by norm_num),
   (c4_cumplimiento_estricto 0 50).2.1⟩

/-- C5: routing is case-insensitive ordered substring matching with the water
trigger first: any question whose lowercased text contains "agua" gets a
water-efficiency analysis (even if it also contains "emision"), and a
question containing neither trigger gets exactly the default answer — the
echoed question, no analysis, and the static legal section. -/
theorem c5_enrutamiento (q : String) (df : List Registro) :
    (contieneLista "agua".toList (minusculas q) = true →
      ∃ a, (consulta_ia q df).analisis = some (Analisis.agua a)) ∧
    (contieneLista "agua".toList (minusculas q) = false →
      contieneLista "emision".toList (minusculas q) = false →
      consulta_ia q df = { pregunta := q, analisis := none, baseLegal := normasPeruBase }) := by
  constructor
  · intro h
    refine ⟨⟨ProcesoRef.metodoSinInvocar,
             serieMax ((eficienciaOrdenada df).map (fun p => p.2)),
             tasaDiaria df (fun r => r.agua_m3) 30⟩, ?_⟩
    unfold consulta_ia
    rw [if_pos h]
  · intro h1 h2
    have h1' : ¬ contieneLista "agua".toList (minusculas q) = true := by rw [h1]; decide
    have h2' : ¬ contieneLista "emision".toList (minusculas q) = true := by rw [h2]; decide
    unfold consulta_ia
    rw [if_neg h1', if_neg h2']

/-- C5 witness: a question containing both trigger terms (in capitals) routes
to the water analysis; a question with no trigger gets the default answer. -/
theorem c5_enrutamiento_witness :
    (∃ a, (consulta_ia "Cuanta AGUA y emision usamos" []).analisis = some (Analisis.agua a)) ∧
    consulta_ia "hola" [] = { pregunta := "hola", analisis := none, baseLegal := normasPeruBase } :=
  ⟨(c5_enrutamiento "Cuanta AGUA y emision usamos" []).1 (by decide),
   (c5_enrutamiento "hola" []).2 (by decide) (by decide)⟩

/-- C6: report generation on a collection whose production total is 0 is
supposed to fail with InsufficientDataError at the water-intensity division;
instead the division by the zero production sum yields inf (water 10,
production 0) and NaN on the empty collection — no error path exists. -/
theorem c6_intensidad_hidrica_sin_error :
    (generarReporte dfProduccionCero).intensidadHidrica = PFloat.inf ∧
    (generarReporte []).intensidadHidrica = PFloat.nan := by
  constructor <;>
    norm_num [dfProduccionCero, generarReporte, totalCampo, divVal, insertarOperacion]

/-- C7: the record appended by the capture form carries
revenue = produccion × 5000, cost = produccion × 3500, environmental
investment = co2 × 40 and waste 0, all fixed at creation from the captured
tuple (the source has no UPDATE path, so they are never edited). -/
theorem c7_campos_derivados (fecha proceso : String) (agua energia co2 produccion : ℚ) :
    (insertarOperacion fecha proceso agua energia co2 produccion).ingresos_soles =
      produccion * 5000 ∧
    (insertarOperacion fecha proceso agua energia co2 produccion).gastos_soles =
      produccion * 3500 ∧
    (insertarOperacion fecha proceso agua energia co2 produccion).inversion_ambiental_soles =
      co2 * 40 ∧
    (insertarOperacion fecha proceso agua energia co2 produccion).residuos_ton = 0 :=
  ⟨rfl, rfl, rfl, rfl⟩

/-- C8: for every investment ≥ 0 and term in [1,10] the simulation yields
annual savings = investment × 0.2 (= investment/5 exactly), ROI years =
the term, the fixed reduction band "15-25%", and the fixed affirmative
compliance cell. -/
theorem c8_simulacion (inversion : ℚ) (plazo : ℕ) (tipo : String)
    (hinv : 0 ≤ inversion) (hmin : 1 ≤ plazo) (hmax : plazo ≤ 10) :
    (simularImpacto inversion plazo tipo).ahorroAnual = inversion * (1 / 5) ∧
    (simularImpacto inversion plazo tipo).roiAnios = plazo ∧
    (simularImpacto inversion plazo tipo).reduccionCo2 = "15-25%" ∧
    (simularImpacto inversion plazo tipo).cumplimientoLegal = "✅ 100%" :=
  ⟨rfl, rfl, rfl, rfl⟩

/-- C8 witness: simulate(1000000, 5, "SolarEnergy") yields savings 200000,
ROI 5 years, band "15-25%". -/
theorem c8_simulacion_witness :
    (simularImpacto 1000000 5 "SolarEnergy").ahorroAnual = 200000 ∧
    (simularImpacto 1000000 5 "SolarEnergy").roiAnios = 5 ∧
    (simularImpacto 1000000 5 "SolarEnergy").reduccionCo2 = "15-25%" := by
  have h := c8_simulacion 1000000 5 "SolarEnergy" (by norm_num) (by norm_num) (by norm_num)
  exact ⟨by rw [h.1]; norm_num, h.2.1, h.2.2.1⟩

/-- C9 counterexample: instantiating the claim's baselineEnergyMean at 200,
a collection with energy mean 150 should be reported "improved"
(150 < 200); the generated report says "empeorado" because the source
compares the mean against the fixed literal 100, not a baseline
parameter. -/
theorem c9_tendencia_contraejemplo :
    mediaCampo dfEnergia150 (fun r => r.energia_kwh) = PFloat.val 150 ∧
    (150 : ℚ) < 200 ∧
    (generarReporte dfEnergia150).tendencia = "empeorado" := by
  refine ⟨?_, by norm_num, ?_⟩ <;>
    norm_num [dfEnergia150, generarReporte, mediaCampo, totalCampo, insertarOperacion, PFloat.lt]

/-- C9 amended: the baseline is the fixed literal 100: for every non-empty
record collection the trend verdict is "mejorado" exactly when the energy
mean is below 100 and "empeorado" otherwise. -/
theorem c9_tendencia_base_fija (df : List Registro) (h : df ≠ []) :
    ((generarReporte df).tendencia = "mejorado" ↔
      totalCampo df (fun r => r.energia_kwh) / (df.length : ℚ) < 100) ∧
    ((generarReporte df).tendencia = "empeorado" ↔
      ¬ totalCampo df (fun r => r.energia_kwh) / (df.length : ℚ) < 100) := by
  match df, h with
  | x :: xs, _ =>
    by_cases hm : totalCampo (x :: xs) (fun r => r.energia_kwh) / (((x :: xs).length : ℕ) : ℚ) < 100
    · constructor <;> simp [generarReporte, mediaCampo, PFloat.lt, hm]
    · constructor <;> simp [generarReporte, mediaCampo, PFloat.lt, hm]

/-- C9 witness: a single record with energy 90 (mean 90 < 100) is reported
"mejorado". -/
theorem c9_tendencia_base_fija_witness :
    (generarReporte dfEnergia90).tendencia = "mejorado" :=
  (c9_tendencia_base_fija dfEnergia90 (by simp [dfEnergia90])).1.mpr
    (by norm_num [dfEnergia90, totalCampo, insertarOperacion])

/-- C10: the selected technology has no influence on any field of the
simulation result: two runs differing only in the technology are equal. -/
theorem c10_tecnologia_sin_influencia (inversion : ℚ) (plazo : ℕ) (t1 t2 : String) :
    simularImpacto inversion plazo t1 = simularImpacto inversion plazo t2 :=
  rfl
